import Mathlib

/-!
Verification development for the reactive recomputation core of `analysis.py`.

The source builds a dataset `df` with columns `feature_a`, `feature_b`,
`group` (categorical over {A, B, C}) and a derived column `score`, exposes a
threshold slider, and recomputes two derived displays whenever the value
changes:

* `update_display` — filters `df` by `score >= thresh`, computes the subset
  size, the per-group counts (`value_counts`, read back through
  `.get(g, 0)` for g in [A, B, C]), the per-group mean scores rounded to two
  decimals (read back through `.get(g, float(nan))`), and a snippet
  `subset.head(10)`.
* `compute_proportions` — filters likewise and computes
  `value_counts(normalize=True).reindex([A, B, C]).fillna(0).round(3)`.

Floats are modelled by rationals; the missing-value placeholder `nan`
produced by `Series.get(g, nan)` is modelled by `Option.none`.  Numpy and
pandas `round` use round-half-to-even, embedded below as `roundHalfEven`.
-/

namespace Analysis

/-- The categorical column values, a fixed known set. -/
inductive Group : Type
  | A
  | B
  | C
deriving DecidableEq

/-- A row of `df`: `feature_a`, `feature_b`, `group`, and the derived
`score` column (`0.6 * feature_a + 0.4 * feature_b` at generation time; the
derived computations only read `score` and `group`, so `score` is stored). -/
structure Row where
  feature_a : ℚ
  feature_b : ℚ
  group : Group
  score : ℚ
deriving DecidableEq

/-- The dataset: an immutable ordered sequence of rows. -/
abbrev Dataset := List Row

/-- The fixed category order used by the source at every read-back site:
the literal list `[A, B, C]` (and `reindex([A, B, C])`). -/
def groupOrder : List Group := [Group.A, Group.B, Group.C]

/-- Round-half-to-even at integer precision: the rounding rule of
`numpy.round` / `pandas.Series.round`. -/
def roundHalfEven (x : ℚ) : ℤ :=
  let n := ⌊x⌋
  let frac := x - n
  if frac < 1/2 then n
  else if 1/2 < frac then n + 1
  else if n % 2 = 0 then n else n + 1

/-- `Series.round(d)`: round-half-to-even at `d` decimal places. -/
def roundTo (d : ℕ) (x : ℚ) : ℚ :=
  (roundHalfEven (x * 10 ^ d) : ℚ) / 10 ^ d

/-- `df[df.score >= thresh]`: the filtered subset, in original row order. -/
def filteredSubset (df : Dataset) (thresh : ℚ) : List Row :=
  df.filter (fun r => decide (thresh ≤ r.score))

/-- `subset.group.value_counts().get(g, 0)`: the number of rows of the
subset in group `g` (`value_counts` omits absent groups, and the `get`
default 0 coincides with the count of an absent group). -/
def countFor (subset : List Row) (g : Group) : ℕ :=
  (subset.filter (fun r => decide (r.group = g))).length

/-- The unrounded group mean `subset.groupby(group).score.mean()` read at
`g`: `none` when the group is absent (pandas drops empty groups, and the
later `.get(g, nan)` yields `nan`). -/
def rawMean (subset : List Row) (g : Group) : Option ℚ :=
  let xs := (subset.filter (fun r => decide (r.group = g))).map Row.score
  if xs.isEmpty then none else some (xs.sum / (xs.length : ℚ))

/-- The unrounded group proportion
`value_counts(normalize=True).reindex(...).fillna(0)` at `g`:
`count / total` when the group occurs, else the `fillna` value 0
(`value_counts` omits absent groups; on an empty subset it is empty, so no
division by zero ever happens). -/
def rawProp (subset : List Row) (g : Group) : ℚ :=
  let c := countFor subset g
  if c = 0 then 0 else (c : ℚ) / (subset.length : ℚ)

/-- The display artifact produced by one `update_display` call: the pieces
interpolated into the markdown summary plus the tabular snippet shown after
it. -/
structure DisplayArtifact where
  threshold : ℚ
  totalRows : ℕ
  datasetSize : ℕ
  counts : List (Group × ℕ)
  means : List (Group × Option ℚ)
  snippet : List Row
deriving DecidableEq

/-- `update_display`: filter `df` by `score >= thresh`, then report the
subset size, counts by group via `counts_by_group.get(g, 0)` for g in
[A, B, C], means by group via
`subset.groupby(group).score.mean().round(2).get(g, nan)` for g in
[A, B, C], and the snippet `subset.head(10)`. -/
def update_display (df : Dataset) (thresh : ℚ) : DisplayArtifact :=
  let subset := filteredSubset df thresh
  { threshold := thresh
    totalRows := subset.length
    datasetSize := df.length
    counts := groupOrder.map (fun g => (g, countFor subset g))
    means := groupOrder.map (fun g =>
      (g, let xs := (subset.filter (fun r => decide (r.group = g))).map Row.score
          if xs.isEmpty then none
          else some (roundTo 2 (xs.sum / (xs.length : ℚ)))))
    snippet := subset.take 10 }

/-- `compute_proportions(threshold)`: filter `df` by `score >= threshold`,
then `value_counts(normalize=True).reindex([A, B, C]).fillna(0).round(3)`,
returned as the series in `reindex` order. -/
def compute_proportions (df : Dataset) (threshold : ℚ) : List (Group × ℚ) :=
  let subset := filteredSubset df threshold
  groupOrder.map (fun g =>
    (g, let c := countFor subset g
        roundTo 3 (if c = 0 then 0 else (c : ℚ) / (subset.length : ℚ))))

/-- Series read-back at a key: the entry for `g` when present. -/
def lookupG {α : Type} (l : List (Group × α)) (g : Group) : Option α :=
  (l.find? (fun p => decide (p.1 = g))).map Prod.snd

/-- State-passing form of `update_display`: the call works on
`subset = df[...].copy()` and only reads `df`, so the dataset it leaves
behind is the one it received. -/
def update_display_run (df : Dataset) (thresh : ℚ) : DisplayArtifact × Dataset :=
  (update_display df thresh, df)

/-- State-passing form of `compute_proportions`: the call only reads `df`. -/
def compute_proportions_run (df : Dataset) (threshold : ℚ) :
    List (Group × ℚ) × Dataset :=
  (compute_proportions df threshold, df)

/-- Modelled from the spec: the repository instantiates a bounded slider
widget (`threshold_slider`); the value holding, domain checking and change
notification of the spec's `ValueSource` live in the widget framework, not
in this repository's source.  The spec's data model is embedded directly: a
declared domain `[lo, hi]`, the current value, and the listeners in
registration order (identified by subscription index). -/
structure ValueSource where
  lo : ℚ
  hi : ℚ
  current : ℚ
  listeners : List ℕ
deriving DecidableEq

/-- Modelled from the spec: the error raised when a value falls outside the
declared domain. -/
structure DomainError where
deriving DecidableEq

/-- Modelled from the spec: membership of a value in the declared domain
`[lo, hi]` of the ValueSource. -/
def ValueSource.inDomain (vs : ValueSource) (x : ℚ) : Bool :=
  decide (vs.lo ≤ x) && decide (x ≤ vs.hi)

/-- Modelled from the spec: `set(newValue)` fails with `DomainError` if
`newValue` is outside the domain (atomically: the current value is
unchanged and no listener fires); otherwise it updates the current value
and synchronously notifies every registered listener with the new value, in
registration order, with no skipping or deduplication when the new value
equals the previous one.  The result records the outcome surfaced to the
caller, the ValueSource state after the call, and the delivered
notifications `(listener, value)` in order. -/
def ValueSource.set (vs : ValueSource) (x : ℚ) :
    Except DomainError Unit × ValueSource × List (ℕ × ℚ) :=
  if vs.inDomain x then
    (Except.ok (), { vs with current := x }, vs.listeners.map (fun l => (l, x)))
  else
    (Except.error ⟨⟩, vs, [])

/-- Modelled from the spec: the notification cycle dispatches every
subscribed view's recompute on the value passed to `set`; a failure inside
one view is captured in that view's own result slot (its render path shows
an error placeholder) instead of aborting the cycle, so each slot holds
exactly that view's own outcome. -/
def notifyAll {α : Type} (views : List (ℚ → Except String α)) (x : ℚ) :
    List (Except String α) :=
  views.map (fun v => v x)

/-! Concrete datasets used by counterexamples and witnesses. -/

/-- A one-row dataset whose only row is in group A with score 10. -/
def exA : Dataset := [{ feature_a := 0, feature_b := 0, group := Group.A, score := 10 }]

/-- A row in group `g` with score 1. -/
def rowOf (g : Group) : Row := { feature_a := 0, feature_b := 0, group := g, score := 1 }

/-- Ten rows: five in group A, three in B, two in C, all with score 1. -/
def ex10 : Dataset :=
  [rowOf Group.A, rowOf Group.A, rowOf Group.A, rowOf Group.A, rowOf Group.A,
   rowOf Group.B, rowOf Group.B, rowOf Group.B, rowOf Group.C, rowOf Group.C]

/-! Helper lemmas about the rounding rule. -/

/-- When `x` lies in `[n, n + 1/2)`, round-half-to-even returns `n`. -/
theorem roundHalfEven_of_lt {x : ℚ} {n : ℤ} (h1 : (n : ℚ) ≤ x)
    (h2 : x < (n : ℚ) + 1/2) : roundHalfEven x = n := by
  have hf : ⌊x⌋ = n := Int.floor_eq_iff.mpr ⟨h1, by linarith⟩
  simp only [roundHalfEven, hf]
  rw [if_pos (by linarith)]

/-- When `x` lies in `(n + 1/2, n + 1)`, round-half-to-even returns `n + 1`. -/
theorem roundHalfEven_of_gt {x : ℚ} {n : ℤ} (h1 : (n : ℚ) + 1/2 < x)
    (h2 : x < (n : ℚ) + 1) : roundHalfEven x = n + 1 := by
  have hf : ⌊x⌋ = n := Int.floor_eq_iff.mpr ⟨by linarith, by linarith⟩
  simp only [roundHalfEven, hf]
  rw [if_neg (by linarith), if_pos (by linarith)]

/-- At an exact halfway point the rule rounds to the even neighbour. -/
theorem roundHalfEven_half (n : ℤ) :
    roundHalfEven ((n : ℚ) + 1/2) = if n % 2 = 0 then n else n + 1 := by
  have hf : ⌊(n : ℚ) + 1/2⌋ = n := Int.floor_eq_iff.mpr ⟨by linarith, by linarith⟩
  simp only [roundHalfEven, hf]
  rw [if_neg (by linarith), if_neg (by linarith)]

/-- Round-half-to-even fixes integers. -/
theorem roundHalfEven_intCast (n : ℤ) : roundHalfEven (n : ℚ) = n :=
  roundHalfEven_of_lt (le_refl _) (by linarith)

/-- Evaluation of `roundTo` when `x` is exactly representable at `d`
decimal places. -/
theorem roundTo_int (d : ℕ) (x : ℚ) (n : ℤ) (h : x * 10 ^ d = (n : ℚ)) :
    roundTo d x = (n : ℚ) / 10 ^ d := by
  unfold roundTo
  rw [h, roundHalfEven_intCast]

/-- `roundTo` fixes zero. -/
theorem roundTo_zero (d : ℕ) : roundTo d 0 = 0 := by
  rw [roundTo_int d 0 0 (by norm_num)]
  norm_num

/-- Read-back of the series assembled over the fixed category order. -/
theorem lookupG_map {α : Type} (f : Group → α) (g : Group) :
    lookupG (groupOrder.map (fun g => (g, f g))) g = some (f g) := by
  cases g <;> rfl

/-! The claims. -/

/-- Claim C1: recomputing with an identical dataset and identical threshold
yields bit-identical artifacts — `update_display` and `compute_proportions`
are pure functions of `(df, threshold)` with no other hidden input. -/
theorem recompute_deterministic (df : Dataset) (t : ℚ) :
    update_display df t = update_display df t ∧
    compute_proportions df t = compute_proportions df t :=
  ⟨rfl, rfl⟩

/-- Claim C8: a recompute leaves the dataset unchanged — the state-passing
forms of `update_display` and `compute_proportions` return the dataset they
received, row for row. -/
theorem recompute_preserves_dataset (df : Dataset) (t : ℚ) :
    (update_display_run df t).2 = df ∧ (compute_proportions_run df t).2 = df :=
  ⟨rfl, rfl⟩

/-- Claim C10: the tabular snippet of the artifact is `subset.head(10)`:
at most the first 10 rows of the filtered subset, which is itself a
sublist of `df` in the original row order; when the subset has 10 or fewer
rows the snippet is exactly the whole subset. -/
theorem snippet_head (df : Dataset) (t : ℚ) :
    (update_display df t).snippet = (filteredSubset df t).take 10 ∧
    (update_display df t).snippet.length ≤ 10 ∧
    List.Sublist (filteredSubset df t) df ∧
    ((filteredSubset df t).length ≤ 10 →
      (update_display df t).snippet = filteredSubset df t) := by
  refine ⟨rfl, ?_, List.filter_sublist df, fun h => ?_⟩
  · simp [update_display, List.length_take]
  · simp [update_display, List.take_of_length_le h]

/-- Claim C10, witness: on the one-row dataset at threshold 0 the subset
has one row, so the snippet is the whole subset. -/
theorem snippet_head_witness :
    (update_display exA 0).snippet = (filteredSubset exA 0).take 10 ∧
    (update_display exA 0).snippet.length ≤ 10 ∧
    List.Sublist (filteredSubset exA 0) exA ∧
    ((filteredSubset exA 0).length ≤ 10 →
      (update_display exA 0).snippet = filteredSubset exA 0) :=
  snippet_head exA 0

/-- Claim C3: for a value outside the declared domain, `set` fails with
`DomainError` surfaced to the caller, the current value (indeed the whole
ValueSource state) is unchanged, and no listener notification fires. -/
theorem set_outside_domain (vs : ValueSource) (x : ℚ)
    (h : vs.inDomain x = false) :
    (vs.set x).1 = Except.error ⟨⟩ ∧
    (vs.set x).2.1 = vs ∧
    (vs.set x).2.1.current = vs.current ∧
    (vs.set x).2.2 = [] := by
  simp [ValueSource.set, h]

/-- Claim C3, witness: on the domain `[0, 10]` with current value 5 and two
listeners, `set 11` errors, leaves the state untouched and notifies
nobody. -/
theorem set_outside_domain_witness :
    (ValueSource.inDomain ⟨0, 10, 5, [0, 1]⟩ 11 = false) ∧
    ((ValueSource.set ⟨0, 10, 5, [0, 1]⟩ 11).1 = Except.error ⟨⟩ ∧
     (ValueSource.set ⟨0, 10, 5, [0, 1]⟩ 11).2.1 = ⟨0, 10, 5, [0, 1]⟩ ∧
     (ValueSource.set ⟨0, 10, 5, [0, 1]⟩ 11).2.1.current =
       (⟨0, 10, 5, [0, 1]⟩ : ValueSource).current ∧
     (ValueSource.set ⟨0, 10, 5, [0, 1]⟩ 11).2.2 = []) := by
  have h : ValueSource.inDomain ⟨0, 10, 5, [0, 1]⟩ 11 = false := by
    norm_num [ValueSource.inDomain]
  exact ⟨h, set_outside_domain ⟨0, 10, 5, [0, 1]⟩ 11 h⟩

/-- Claim C5: for a value inside the domain, an explicit `set` succeeds,
updates the current value, and invokes every registered listener with the
new value in registration order — with no hypothesis that the new value
differs from the previous one, so no invocation is skipped or deduplicated
on a same-value set. -/
theorem set_notifies_all (vs : ValueSource) (x : ℚ)
    (h : vs.inDomain x = true) :
    (vs.set x).1 = Except.ok () ∧
    (vs.set x).2.1.current = x ∧
    (vs.set x).2.2 = vs.listeners.map (fun l => (l, x)) := by
  simp [ValueSource.set, h]

/-- Claim C5, witness: setting the value 5 when the current value is
already 5 still notifies both listeners, in order, with 5. -/
theorem set_notifies_all_witness :
    (ValueSource.inDomain ⟨0, 10, 5, [0, 1]⟩ 5 = true) ∧
    ((ValueSource.set ⟨0, 10, 5, [0, 1]⟩ 5).1 = Except.ok () ∧
     (ValueSource.set ⟨0, 10, 5, [0, 1]⟩ 5).2.1.current = 5 ∧
     (ValueSource.set ⟨0, 10, 5, [0, 1]⟩ 5).2.2 =
       ([0, 1] : List ℕ).map (fun l => (l, (5 : ℚ)))) := by
  have h : ValueSource.inDomain ⟨0, 10, 5, [0, 1]⟩ 5 = true := by
    norm_num [ValueSource.inDomain]
  exact ⟨h, set_notifies_all ⟨0, 10, 5, [0, 1]⟩ 5 h⟩

/-- Claim C9: when one of three subscribed views fails during the
notification cycle of a `set` call, the other views still produce their own
artifacts on that same call, and the failing view's error lands only in its
own result slot. -/
theorem listener_isolation {α : Type} (v1 v2 v3 : ℚ → Except String α)
    (x : ℚ) (e : String) (h : v2 x = Except.error e) :
    notifyAll [v1, v2, v3] x = [v1 x, Except.error e, v3 x] := by
  simp [notifyAll, h]

/-- Claim C9, witness: with two healthy `update_display` views around a
view that raises, the cycle yields the two artifacts and one error slot. -/
theorem listener_isolation_witness :
    notifyAll [fun t => Except.ok (update_display exA t),
               fun _ => Except.error "recompute failed",
               fun t => Except.ok (update_display exA t)] 0 =
      [Except.ok (update_display exA 0), Except.error "recompute failed",
       Except.ok (update_display exA 0)] :=
  listener_isolation _ _ _ 0 "recompute failed" rfl

/-- Keys of a series assembled over the fixed category order. -/
theorem map_fst_groupOrder {α : Type} (f : Group → α) :
    (groupOrder.map (fun g => (g, f g))).map Prod.fst = groupOrder := by
  simp [groupOrder]

/-- Claim C2, counterexample: on the one-row dataset (one group-A row of
score 10) at threshold 0, group B is absent from the filtered subset, yet
its mean entry in the artifact is the missing-value placeholder `nan`
(modelled `none`), not the claimed default 0.0. -/
theorem mean_default_counterexample :
    lookupG (update_display exA 0).means Group.B = some none ∧
    lookupG (update_display exA 0).means Group.B ≠ some (some (0 : ℚ)) := by
  have hsub : filteredSubset exA 0 = exA := by
    norm_num [filteredSubset, exA, List.filter]
  have h : lookupG (update_display exA 0).means Group.B = some none := by
    simp only [update_display]
    rw [lookupG_map]
    simp [hsub, exA, List.filter]
  exact ⟨h, by rw [h]; simp⟩

/-- Claim C2 (amended): for every threshold the group-count, group-mean and
group-proportion artifacts contain an entry for every category of the fixed
set {A, B, C}, in that fixed order never reordered by data content; a
category absent from the filtered subset defaults to 0 for counts and 0.0
for proportions, while its mean entry is the missing-value placeholder
`nan` (modelled `none`). -/
theorem category_completeness (df : Dataset) (t : ℚ) (g : Group) :
    (update_display df t).counts.map Prod.fst = groupOrder ∧
    (update_display df t).means.map Prod.fst = groupOrder ∧
    (compute_proportions df t).map Prod.fst = groupOrder ∧
    (countFor (filteredSubset df t) g = 0 →
      lookupG (update_display df t).counts g = some 0 ∧
      lookupG (update_display df t).means g = some none ∧
      lookupG (compute_proportions df t) g = some 0) := by
  refine ⟨?_, ?_, ?_, fun habs => ?_⟩
  · simp only [update_display]
    exact map_fst_groupOrder _
  · simp only [update_display]
    exact map_fst_groupOrder _
  · simp only [compute_proportions]
    exact map_fst_groupOrder _
  · have habs' : ((filteredSubset df t).filter (fun r => decide (r.group = g))).length = 0 :=
      habs
    have hnil : (filteredSubset df t).filter (fun r => decide (r.group = g)) = [] :=
      List.length_eq_zero.mp habs'
    refine ⟨?_, ?_, ?_⟩
    · simp only [update_display]
      rw [lookupG_map, habs]
    · simp only [update_display]
      rw [lookupG_map]
      simp [hnil]
    · simp only [compute_proportions]
      rw [lookupG_map]
      simp [habs, roundTo_zero]

/-- Claim C2 (amended), witness: on the one-row group-A dataset at
threshold 0, group B is absent and all three artifacts carry its default
entry. -/
theorem category_completeness_witness :
    countFor (filteredSubset exA 0) Group.B = 0 ∧
    ((update_display exA 0).counts.map Prod.fst = groupOrder ∧
     (update_display exA 0).means.map Prod.fst = groupOrder ∧
     (compute_proportions exA 0).map Prod.fst = groupOrder ∧
     (lookupG (update_display exA 0).counts Group.B = some 0 ∧
      lookupG (update_display exA 0).means Group.B = some none ∧
      lookupG (compute_proportions exA 0) Group.B = some 0)) := by
  have h : countFor (filteredSubset exA 0) Group.B = 0 := by
    norm_num [countFor, filteredSubset, exA, List.filter]
    rfl
  obtain ⟨h1, h2, h3, h4⟩ := category_completeness exA 0 Group.B
  exact ⟨h, h1, h2, h3, h4 h⟩

/-- Claim C4: when the filtered subset is empty, recompute still produces a
well-formed artifact: zero total, zero counts for every category, the
consistent missing-value placeholder for every mean, an empty snippet, and
all-zero proportions — no division by zero is ever performed. -/
theorem empty_subset_wellformed (df : Dataset) (t : ℚ)
    (h : filteredSubset df t = []) :
    update_display df t =
      { threshold := t, totalRows := 0, datasetSize := df.length,
        counts := [(Group.A, 0), (Group.B, 0), (Group.C, 0)],
        means := [(Group.A, none), (Group.B, none), (Group.C, none)],
        snippet := [] } ∧
    compute_proportions df t = [(Group.A, 0), (Group.B, 0), (Group.C, 0)] := by
  constructor
  · simp [update_display, h, countFor, groupOrder]
  · simp [compute_proportions, h, countFor, groupOrder, roundTo_zero]

/-- Claim C4, witness: threshold 100 on the one-row dataset (score 10)
filters out every row and yields the zero-filled artifacts. -/
theorem empty_subset_wellformed_witness :
    filteredSubset exA 100 = [] ∧
    (update_display exA 100 =
      { threshold := 100, totalRows := 0, datasetSize := exA.length,
        counts := [(Group.A, 0), (Group.B, 0), (Group.C, 0)],
        means := [(Group.A, none), (Group.B, none), (Group.C, none)],
        snippet := [] } ∧
     compute_proportions exA 100 = [(Group.A, 0), (Group.B, 0), (Group.C, 0)]) := by
  have h : filteredSubset exA 100 = [] := by
    norm_num [filteredSubset, exA, List.filter]
  exact ⟨h, empty_subset_wellformed exA 100 h⟩

/-- Claim C6: on a dataset of 10 rows with groups 5 × A, 3 × B, 2 × C and a
threshold selecting all 10 rows, `compute_proportions` returns exactly
{A: 0.5, B: 0.3, C: 0.2}. -/
theorem proportions_scenario :
    compute_proportions ex10 0 =
      [(Group.A, 1/2), (Group.B, 3/10), (Group.C, 1/5)] := by
  have hsub : filteredSubset ex10 0 = ex10 := by
    norm_num [filteredSubset, ex10, rowOf, List.filter]
  have cA : countFor ex10 Group.A = 5 := rfl
  have cB : countFor ex10 Group.B = 3 := rfl
  have cC : countFor ex10 Group.C = 2 := rfl
  have hlen : ex10.length = 10 := rfl
  have hrA : roundTo 3 ((5 : ℚ) / 10) = 1/2 := by
    rw [roundTo_int 3 _ 500 (by norm_num)]
    norm_num
  have hrB : roundTo 3 ((3 : ℚ) / 10) = 3/10 := by
    rw [roundTo_int 3 _ 300 (by norm_num)]
    norm_num
  have hrC : roundTo 3 ((2 : ℚ) / 10) = 1/5 := by
    rw [roundTo_int 3 _ 200 (by norm_num)]
    norm_num
  simp [compute_proportions, hsub, groupOrder, cA, cB, cC, hlen, hrA, hrB, hrC]

/-- Claim C7: group means in the artifact are the raw group means rounded
at exactly 2 decimal places and group proportions are the raw proportions
rounded at exactly 3 decimal places, both through the single rounding rule
`roundTo`, whose halfway behaviour is round-half-to-even: every exact
halfway point rounds to the even neighbour. -/
theorem rounding_rule (df : Dataset) (t : ℚ) (g : Group) :
    lookupG (update_display df t).means g =
      some ((rawMean (filteredSubset df t) g).map (roundTo 2)) ∧
    lookupG (compute_proportions df t) g =
      some (roundTo 3 (rawProp (filteredSubset df t) g)) ∧
    ∀ n : ℤ, 2 ∣ roundHalfEven ((n : ℚ) + 1/2) := by
  refine ⟨?_, ?_, ?_⟩
  · simp only [update_display]
    rw [lookupG_map]
    simp only [rawMean]
    split
    · simp
    · simp
  · simp only [compute_proportions]
    rw [lookupG_map]
    rfl
  · intro n
    rw [roundHalfEven_half]
    by_cases h : n % 2 = 0
    · simp [h]
      omega
    · simp [h]
      omega

end Analysis
